import Mathlib

/-!
Verification of the SageMaker training-notebook repository
(`yahoo-sagemaker-training`): a shallow embedding of the notebooks'
local, deterministic logic (dataset preprocessing, train/validation
splitting, job-configuration assembly, and the linear cell-by-cell
control flow), together with theorems settling the specification's
claims about that logic.
-/

namespace YahooSagemaker

/-! ## Dataframe model

A pandas dataframe is modelled as a list of column names together with a
list of rows; each row is a mapping from column name to value, mirroring
pandas' label-based (not positional) cell access. -/

structure DataFrame (α : Type) where
  cols : List String
  rows : List (String → α)

/-- The nine abalone column names, exactly as in the `feature_names` list of
both XGBoost notebooks. -/
def featureNames : List String :=
  ["Sex", "Length", "Diameter", "Height", "Whole weight",
   "Shucked weight", "Viscera weight", "Shell weight", "Rings"]

/-- Python slice `l[-1:]` for a list. -/
def pyLastSlice (l : List String) : List String := l.drop (l.length - 1)

/-- Python slice `l[:-1]` for a list. -/
def pyInitSlice (l : List String) : List String := l.take (l.length - 1)

/-- The reordered column list `feature_names[-1:] + feature_names[:-1]`
computed by the column-reorder cell. -/
def reorderedNames : List String := pyLastSlice featureNames ++ pyInitSlice featureNames

/-- Pandas column selection `data[names]`: produces a dataframe whose columns
are `names` in the given order; raises (here: `none`) when a requested name is
not an existing column. Row mappings are untouched. -/
def selectColumns (df : DataFrame α) (names : List String) : Option (DataFrame α) :=
  if names.all (fun c => df.cols.contains c) then
    some { cols := names, rows := df.rows }
  else none

/-! ## Train/validation split

`int(.8*n)`: the split index `int(.8*len(data))`. For every dataset size
representable in this program (far below `2 ^ 49` rows) the IEEE-double
product `.8*n` has the same integer part as the rational `4*n/5`, so the
index is embedded as floor division. `int(.5*k)` is exact in binary floating
point and equals `k / 2`. -/

def int08 (n : Nat) : Nat := 4 * n / 5

def int05 (n : Nat) : Nat := n / 2

/-- `np.split(l, [k])`: the two sections `l[:k]` and `l[k:]`. -/
def npSplit2 (k : Nat) (l : List α) : List α × List α := (l.take k, l.drop k)

/-- `np.split(data.sample(frac=1), [int(.8*len(data))])`, applied to the
already-shuffled row list. -/
def trainValSplit (shuffled : List α) : List α × List α :=
  npSplit2 (int08 shuffled.length) shuffled

/-- `np.split(train.sample(frac=1), [int(.5*len(train))])`: `train` is the
train section, `shuffledTrain` the result of sampling it. -/
def trainShardSplit (train shuffledTrain : List α) : List α × List α :=
  npSplit2 (int05 train.length) shuffledTrain

/-! ## Theorems about the dataframe operations -/

/-- C1: selecting `feature_names[-1:] + feature_names[:-1]` from a dataframe
with the nine abalone columns succeeds, puts the label column `Rings` at
index 0, keeps the eight feature columns in their original relative order,
and leaves every row's values unchanged. -/
theorem reorder_puts_label_first {α : Type} (df : DataFrame α)
    (h : df.cols = featureNames) :
    ∃ df2, selectColumns df reorderedNames = some df2 ∧
      df2.cols.head? = some "Rings" ∧
      df2.cols.tail = featureNames.take 8 ∧
      df2.rows = df.rows := by
  refine ⟨{ cols := reorderedNames, rows := df.rows }, ?_, rfl, rfl, rfl⟩
  unfold selectColumns
  rw [h]
  rfl

theorem reorder_puts_label_first_witness :
    ∃ df2, selectColumns (⟨featureNames, []⟩ : DataFrame Nat) reorderedNames = some df2 ∧
      df2.cols.head? = some "Rings" ∧
      df2.cols.tail = featureNames.take 8 ∧
      df2.rows = (⟨featureNames, []⟩ : DataFrame Nat).rows :=
  reorder_puts_label_first ⟨featureNames, []⟩ rfl

/-- C2: the train and validation sections of
`np.split(data.sample(frac=1), [int(.8*len(data))])` have row counts summing
to the row count of the input dataset. -/
theorem split_sizes_sum {α : Type} (data shuffled : List α)
    (h : shuffled.Perm data) :
    (trainValSplit shuffled).1.length + (trainValSplit shuffled).2.length
      = data.length := by
  have hlen := h.length_eq
  simp only [trainValSplit, npSplit2, List.length_take, List.length_drop]
  omega

theorem split_sizes_sum_witness :
    (trainValSplit [3, 1, 4, 1, 5]).1.length + (trainValSplit [3, 1, 4, 1, 5]).2.length
      = [5, 4, 3, 1, 1].length :=
  split_sizes_sum [5, 4, 3, 1, 1] [3, 1, 4, 1, 5] (by decide)

/-- C3: the split is 80/20: the train section has exactly
`⌊0.8 * n⌋ = 4 * n / 5` rows and the validation section the remaining
`n - 4 * n / 5` rows, where `n` is the input row count. -/
theorem split_sizes_eighty_twenty {α : Type} (data shuffled : List α)
    (h : shuffled.Perm data) :
    (trainValSplit shuffled).1.length = int08 data.length ∧
    (trainValSplit shuffled).2.length = data.length - int08 data.length ∧
    5 * int08 data.length ≤ 4 * data.length ∧
    4 * data.length < 5 * (int08 data.length + 1) := by
  have hlen := h.length_eq
  simp only [trainValSplit, npSplit2, List.length_take, List.length_drop, int08]
  omega

theorem split_sizes_eighty_twenty_witness :
    (trainValSplit [3, 1, 4, 1, 5]).1.length = int08 [5, 4, 3, 1, 1].length ∧
    (trainValSplit [3, 1, 4, 1, 5]).2.length
      = [5, 4, 3, 1, 1].length - int08 [5, 4, 3, 1, 1].length ∧
    5 * int08 [5, 4, 3, 1, 1].length ≤ 4 * [5, 4, 3, 1, 1].length ∧
    4 * [5, 4, 3, 1, 1].length < 5 * (int08 [5, 4, 3, 1, 1].length + 1) :=
  split_sizes_eighty_twenty [5, 4, 3, 1, 1] [3, 1, 4, 1, 5] (by decide)

/-! ## Preprocessing pipeline outputs

The split cell draws two random reorderings via `sample(frac=1)` (no fixed
seed): one of the whole dataset and one of the train section. The pipeline's
output files are a deterministic function of those two drawn sequences. -/

structure OutFiles (α : Type) where
  train0 : List α
  train1 : List α
  validation : List α
  deriving DecidableEq, Repr

/-- The three files written by the split cell (`abalone_train_0`,
`abalone_train_1`, `abalone_validation`), as a function of the two shuffled
sequences `s1 = data.sample(frac=1)` and `s2 = train.sample(frac=1)`. -/
def preprocessOutputs (s1 s2 : List α) : OutFiles α :=
  let tv := trainValSplit s1
  let sh := trainShardSplit tv.1 s2
  ⟨sh.1, sh.2, tv.2⟩

/-- C9: the two train shards together are exactly the train section, the
train and validation sections together are exactly the input dataset (as
multisets of rows), and the shard sizes differ by at most one. -/
theorem shard_split_partitions {α : Type} (data s1 s2 : List α)
    (h1 : s1.Perm data) (h2 : s2.Perm (trainValSplit s1).1) :
    ((trainShardSplit (trainValSplit s1).1 s2).1
        ++ (trainShardSplit (trainValSplit s1).1 s2).2).Perm (trainValSplit s1).1 ∧
    ((trainValSplit s1).1 ++ (trainValSplit s1).2).Perm data ∧
    (trainShardSplit (trainValSplit s1).1 s2).1.length
      ≤ (trainShardSplit (trainValSplit s1).1 s2).2.length + 1 ∧
    (trainShardSplit (trainValSplit s1).1 s2).2.length
      ≤ (trainShardSplit (trainValSplit s1).1 s2).1.length + 1 := by
  have hs2 := h2.length_eq
  refine ⟨?_, ?_, ?_, ?_⟩
  · rw [trainShardSplit, npSplit2]
    rw [List.take_append_drop]
    exact h2
  · rw [trainValSplit, npSplit2]
    rw [List.take_append_drop]
    exact h1
  · simp only [trainShardSplit, npSplit2, List.length_take, List.length_drop, int05] at *
    omega
  · simp only [trainShardSplit, npSplit2, List.length_take, List.length_drop, int05] at *
    omega

theorem shard_split_partitions_witness :
    ((trainShardSplit (trainValSplit [1, 2, 3, 4, 5]).1 [2, 1, 4, 3]).1
        ++ (trainShardSplit (trainValSplit [1, 2, 3, 4, 5]).1 [2, 1, 4, 3]).2).Perm
      (trainValSplit [1, 2, 3, 4, 5]).1 ∧
    ((trainValSplit [1, 2, 3, 4, 5]).1 ++ (trainValSplit [1, 2, 3, 4, 5]).2).Perm
      [5, 4, 3, 2, 1] ∧
    (trainShardSplit (trainValSplit [1, 2, 3, 4, 5]).1 [2, 1, 4, 3]).1.length
      ≤ (trainShardSplit (trainValSplit [1, 2, 3, 4, 5]).1 [2, 1, 4, 3]).2.length + 1 ∧
    (trainShardSplit (trainValSplit [1, 2, 3, 4, 5]).1 [2, 1, 4, 3]).2.length
      ≤ (trainShardSplit (trainValSplit [1, 2, 3, 4, 5]).1 [2, 1, 4, 3]).1.length + 1 :=
  shard_split_partitions [5, 4, 3, 2, 1] [1, 2, 3, 4, 5] [2, 1, 4, 3]
    (by decide) (by decide)

/-- C6 counterexample: two runs of the preprocessing pipeline on the same
five-row dataset, each with a legitimate shuffle draw (a permutation of the
dataset, resp. of the resulting train section), produce different output
files — the pipeline shuffles with `sample(frac=1)` and no fixed seed. -/
theorem preprocess_not_run_deterministic :
    ([0, 1, 2, 3, 4] : List Nat).Perm [0, 1, 2, 3, 4] ∧
    ([0, 1, 2, 3] : List Nat).Perm (trainValSplit [0, 1, 2, 3, 4]).1 ∧
    ([4, 3, 2, 1, 0] : List Nat).Perm [0, 1, 2, 3, 4] ∧
    ([4, 3, 2, 1] : List Nat).Perm (trainValSplit [4, 3, 2, 1, 0]).1 ∧
    preprocessOutputs [0, 1, 2, 3, 4] [0, 1, 2, 3]
      ≠ preprocessOutputs [4, 3, 2, 1, 0] ([4, 3, 2, 1] : List Nat) := by
  refine ⟨by decide, by decide, by decide, by decide, by decide⟩

/-- C6 (amended): the preprocessing pipeline is stateless and straight-line,
but its only run-to-run variation is the pair of unseeded shuffle draws: two
runs on the same input produce identical output files whenever the drawn
shuffle sequences coincide, and on every valid run the output files together
contain exactly the rows of the input dataset, so any two valid runs'
combined outputs agree as multisets. -/
theorem preprocess_deterministic_given_shuffles {α : Type} (data s1 s2 s3 s4 : List α)
    (h1 : s1.Perm data) (h2 : s2.Perm (trainValSplit s1).1)
    (h3 : s3.Perm data) (h4 : s4.Perm (trainValSplit s3).1) :
    (s1 = s3 → s2 = s4 → preprocessOutputs s1 s2 = preprocessOutputs s3 s4) ∧
    ((preprocessOutputs s1 s2).train0 ++ (preprocessOutputs s1 s2).train1
        ++ (preprocessOutputs s1 s2).validation).Perm data ∧
    ((preprocessOutputs s1 s2).train0 ++ (preprocessOutputs s1 s2).train1
        ++ (preprocessOutputs s1 s2).validation).Perm
      ((preprocessOutputs s3 s4).train0 ++ (preprocessOutputs s3 s4).train1
        ++ (preprocessOutputs s3 s4).validation) := by
  have combined : ∀ (t u : List α), t.Perm data → u.Perm (trainValSplit t).1 →
      ((preprocessOutputs t u).train0 ++ (preprocessOutputs t u).train1
        ++ (preprocessOutputs t u).validation).Perm data := by
    intro t u ht hu
    simp only [preprocessOutputs, trainShardSplit, npSplit2]
    rw [List.take_append_drop]
    have step1 : (u ++ (trainValSplit t).2).Perm
        ((trainValSplit t).1 ++ (trainValSplit t).2) := hu.append_right _
    have step2 : (trainValSplit t).1 ++ (trainValSplit t).2 = t := by
      rw [trainValSplit, npSplit2, List.take_append_drop]
    exact step1.trans (by rw [step2]; exact ht)
  refine ⟨fun e1 e2 => by rw [e1, e2], combined s1 s2 h1 h2, ?_⟩
  exact (combined s1 s2 h1 h2).trans (combined s3 s4 h3 h4).symm

theorem preprocess_deterministic_given_shuffles_witness :
    (([0, 1, 2, 3, 4] : List Nat) = [0, 1, 2, 3, 4] → ([0, 1, 2, 3] : List Nat) = [0, 1, 2, 3] →
      preprocessOutputs [0, 1, 2, 3, 4] [0, 1, 2, 3]
        = preprocessOutputs [0, 1, 2, 3, 4] [0, 1, 2, 3]) ∧
    ((preprocessOutputs ([0, 1, 2, 3, 4] : List Nat) [0, 1, 2, 3]).train0
        ++ (preprocessOutputs ([0, 1, 2, 3, 4] : List Nat) [0, 1, 2, 3]).train1
        ++ (preprocessOutputs ([0, 1, 2, 3, 4] : List Nat) [0, 1, 2, 3]).validation).Perm
      [0, 1, 2, 3, 4] ∧
    ((preprocessOutputs ([0, 1, 2, 3, 4] : List Nat) [0, 1, 2, 3]).train0
        ++ (preprocessOutputs ([0, 1, 2, 3, 4] : List Nat) [0, 1, 2, 3]).train1
        ++ (preprocessOutputs ([0, 1, 2, 3, 4] : List Nat) [0, 1, 2, 3]).validation).Perm
      ((preprocessOutputs ([0, 1, 2, 3, 4] : List Nat) [0, 1, 2, 3]).train0
        ++ (preprocessOutputs ([0, 1, 2, 3, 4] : List Nat) [0, 1, 2, 3]).train1
        ++ (preprocessOutputs ([0, 1, 2, 3, 4] : List Nat) [0, 1, 2, 3]).validation) :=
  preprocess_deterministic_given_shuffles [0, 1, 2, 3, 4] [0, 1, 2, 3, 4] [0, 1, 2, 3]
    [0, 1, 2, 3, 4] [0, 1, 2, 3] (by decide) (by decide) (by decide) (by decide)

/-! ## Job-configuration assembly (built-in XGBoost notebook)

The estimator-construction cell of the built-in notebook, embedded field by
field. The only non-literal ingredient is the wall-clock timestamp
`time.strftime("%Y-%m-%d-%H-%M-%S", time.gmtime())`, which enters the job
name; it is passed as the argument `ts`. -/

structure BuiltinConfig where
  jobName : String
  hyperparameters : List (String × String)
  instanceType : String
  instanceCount : Nat
  volumeSize : Nat
  outputPath : String
  useSpotInstances : Bool
  maxRun : Nat
  maxWait : Option Nat
  checkpointS3Uri : Option String
  trainInputUri : String
  trainDistribution : String
  validationInputUri : String
  validationDistribution : String
  deriving DecidableEq, Repr

/-- The `hyperparameters` dictionary of the built-in notebook. -/
def builtinHyperparameters : List (String × String) :=
  [("max_depth", "5"), ("eta", "0.2"), ("gamma", "4"), ("min_child_weight", "6"),
   ("subsample", "0.7"), ("objective", "reg:squarederror"), ("num_round", "50"),
   ("verbosity", "2")]

/-- `job_name = "DEMO-xgboost-builtin-" + time.strftime(...)`. -/
def builtinJobName (ts : String) : String := "DEMO-xgboost-builtin-" ++ ts

/-- `max_wait = 7200 if use_spot_instances else None`. -/
def builtinMaxWait (useSpot : Bool) : Option Nat :=
  if useSpot then some 7200 else none

/-- `checkpoint_s3_uri = "s3://{}/{}/checkpoints/{}".format(bucket, prefix,
job_name) if use_spot_instances else None`. -/
def builtinCheckpointUri (useSpot : Bool) (bucket pfx jobName : String) : Option String :=
  if useSpot then some ("s3://" ++ bucket ++ "/" ++ pfx ++ "/checkpoints/" ++ jobName)
  else none

/-- The estimator-construction cell of the built-in notebook: assembles the
full training-job configuration from the cell's literals, the bucket/prefix
variables, the spot flag (set to the literal `false` in the code, carried as
an argument so the `if`-coupling of the spot parameters is visible), and the
timestamp `ts`. -/
def mkBuiltinConfig (useSpot : Bool) (bucket pfx ts : String) : BuiltinConfig :=
  let jobName := builtinJobName ts
  { jobName := jobName
    hyperparameters := builtinHyperparameters
    instanceType := "ml.m5.2xlarge"
    instanceCount := 2
    volumeSize := 5
    outputPath := "s3://" ++ bucket ++ "/" ++ pfx ++ "/abalone-xgb/output"
    useSpotInstances := useSpot
    maxRun := 3600
    maxWait := builtinMaxWait useSpot
    checkpointS3Uri := builtinCheckpointUri useSpot bucket pfx jobName
    trainInputUri := "s3://" ++ bucket ++ "/" ++ pfx ++ "/train/"
    trainDistribution := "ShardedByS3Key"
    validationInputUri := "s3://" ++ bucket ++ "/" ++ pfx ++ "/validation/"
    validationDistribution := "FullyReplicated" }

/-- The configuration the built-in notebook actually constructs:
`use_spot_instances = False`. -/
def builtinNotebookConfig (bucket pfx ts : String) : BuiltinConfig :=
  mkBuiltinConfig false bucket pfx ts

/-- C5 counterexample: two executions of the configuration-assembly cells on
the same inputs (same bucket and prefix) but at different wall-clock times
produce different configuration objects — the job name embeds the timestamp. -/
theorem config_assembly_not_reexecution_identical :
    builtinNotebookConfig "my-bucket" "sagemaker/xgboost-dist-builtin"
        "2022-01-01-00-00-00"
      ≠ builtinNotebookConfig "my-bucket" "sagemaker/xgboost-dist-builtin"
        "2022-01-01-00-00-01" := by
  decide

/-- C5 (amended): configuration assembly is a pure function of the bucket,
prefix, and the wall-clock timestamp, with no validation logic; two
executions on the same inputs produce configurations identical in every
field except the job name, and the job names differ exactly when the
timestamps differ. -/
theorem config_assembly_identical_except_jobname (bucket pfx ts1 ts2 : String) :
    (builtinNotebookConfig bucket pfx ts1).hyperparameters
        = (builtinNotebookConfig bucket pfx ts2).hyperparameters ∧
    (builtinNotebookConfig bucket pfx ts1).instanceType
        = (builtinNotebookConfig bucket pfx ts2).instanceType ∧
    (builtinNotebookConfig bucket pfx ts1).instanceCount
        = (builtinNotebookConfig bucket pfx ts2).instanceCount ∧
    (builtinNotebookConfig bucket pfx ts1).volumeSize
        = (builtinNotebookConfig bucket pfx ts2).volumeSize ∧
    (builtinNotebookConfig bucket pfx ts1).outputPath
        = (builtinNotebookConfig bucket pfx ts2).outputPath ∧
    (builtinNotebookConfig bucket pfx ts1).useSpotInstances
        = (builtinNotebookConfig bucket pfx ts2).useSpotInstances ∧
    (builtinNotebookConfig bucket pfx ts1).maxRun
        = (builtinNotebookConfig bucket pfx ts2).maxRun ∧
    (builtinNotebookConfig bucket pfx ts1).maxWait
        = (builtinNotebookConfig bucket pfx ts2).maxWait ∧
    (builtinNotebookConfig bucket pfx ts1).checkpointS3Uri
        = (builtinNotebookConfig bucket pfx ts2).checkpointS3Uri ∧
    (builtinNotebookConfig bucket pfx ts1).trainInputUri
        = (builtinNotebookConfig bucket pfx ts2).trainInputUri ∧
    (builtinNotebookConfig bucket pfx ts1).validationInputUri
        = (builtinNotebookConfig bucket pfx ts2).validationInputUri ∧
    ((builtinNotebookConfig bucket pfx ts1).jobName
        = (builtinNotebookConfig bucket pfx ts2).jobName ↔ ts1 = ts2) := by
  refine ⟨rfl, rfl, rfl, rfl, rfl, rfl, rfl, rfl, rfl, rfl, rfl, ?_, ?_⟩
  · intro h
    have h2 : (builtinJobName ts1).data = (builtinJobName ts2).data :=
      congrArg String.data h
    simp only [builtinJobName, String.data_append] at h2
    exact String.ext (List.append_cancel_left h2)
  · intro h
    rw [h]

/-- C10: the spot parameters are coupled to the spot flag: `max_wait` and
`checkpoint_s3_uri` are non-`None` exactly when `use_spot_instances` is
`True`, and the notebook's configuration (spot flag literally `False`)
carries `max_wait = None` and `checkpoint_s3_uri = None`. -/
theorem spot_parameters_coupled (useSpot : Bool) (bucket pfx ts jobName : String) :
    ((builtinMaxWait useSpot).isSome = useSpot) ∧
    ((builtinCheckpointUri useSpot bucket pfx jobName).isSome = useSpot) ∧
    ((mkBuiltinConfig useSpot bucket pfx ts).maxWait.isSome = useSpot) ∧
    ((mkBuiltinConfig useSpot bucket pfx ts).checkpointS3Uri.isSome = useSpot) ∧
    (builtinNotebookConfig bucket pfx ts).maxWait = none ∧
    (builtinNotebookConfig bucket pfx ts).checkpointS3Uri = none := by
  cases useSpot <;>
    simp [mkBuiltinConfig, builtinNotebookConfig, builtinMaxWait, builtinCheckpointUri]

/-! ## Notebook control flow

Each notebook is a linear script; its cells (with multi-statement cells
broken into their successive statements where the statements fall in
different phases) are embedded as a list of abstract steps in source order.
SDK calls can raise; a Python exception is an `Except.error`. -/

inductive PyError where
  | valueError : PyError
  | clientError : String → PyError
  | genericError : String → PyError
  deriving DecidableEq, Repr

inductive Step where
  | pipInstall : Step
  | roleCell : Step
  | loadData : Step
  | preprocessData : Step
  | uploadData : String → Step
  | retrieveImage : Step
  | configureJob : Step
  | mkEstimator : String → Step
  | mkTuner : String → Step
  | fit : String → Step
  | deploy : String → Step
  | predictCall : String → Step
  | deleteEndpoint : String → Step
  | localEval : Step
  deriving DecidableEq, Repr

/-- The cells of the built-in XGBoost notebook, in source order. -/
def builtinNotebook : List Step :=
  [Step.pipInstall, Step.roleCell, Step.loadData, Step.preprocessData,
   Step.preprocessData, Step.preprocessData,
   Step.uploadData "abalone_train_0.csv", Step.uploadData "abalone_train_1.csv",
   Step.uploadData "abalone_validation.csv", Step.retrieveImage,
   Step.configureJob, Step.mkEstimator "xgb_estimator", Step.fit "xgb_estimator",
   Step.deploy "xgb_estimator", Step.localEval, Step.predictCall "xgb_estimator",
   Step.deleteEndpoint "xgb_estimator",
   Step.configureJob, Step.configureJob, Step.mkTuner "tuner", Step.fit "tuner",
   Step.localEval, Step.deploy "tuner", Step.predictCall "tuner",
   Step.deleteEndpoint "tuner"]

/-- The cells of the script-mode XGBoost notebook, in source order. -/
def scriptModeNotebook : List Step :=
  [Step.roleCell, Step.loadData, Step.preprocessData, Step.preprocessData,
   Step.uploadData "abalone_train_0.parquet", Step.uploadData "abalone_train_1.parquet",
   Step.uploadData "abalone_validation.parquet",
   Step.configureJob, Step.mkEstimator "xgb_estimator", Step.fit "xgb_estimator",
   Step.deploy "xgb_estimator", Step.localEval, Step.predictCall "xgb_estimator",
   Step.deleteEndpoint "xgb_estimator"]

/-- The cells of the HuggingFace checkpointing notebook after the permissions
cell, in source order (the permissions cell itself is modelled separately by
`hfRoleCell` because of its `try/except`). -/
def hfRestSteps : List Step :=
  [Step.loadData, Step.preprocessData, Step.uploadData "train", Step.uploadData "test",
   Step.configureJob, Step.configureJob, Step.configureJob,
   Step.mkEstimator "huggingface_estimator", Step.fit "huggingface_estimator",
   Step.localEval, Step.configureJob, Step.configureJob,
   Step.mkEstimator "huggingface_estimator_resume",
   Step.fit "huggingface_estimator_resume"]

/-- The full HuggingFace notebook trace (pip cells, then the permissions
cell, then the rest). -/
def hfNotebook : List Step :=
  Step.pipInstall :: Step.pipInstall :: Step.roleCell :: hfRestSteps

/-- The permissions cell of the HuggingFace notebook:
`try: role = sagemaker.get_execution_role() except ValueError: role =
iam.get_role(...)`. `execRole` is the outcome of `get_execution_role`,
`iamLookup` that of the `iam.get_role` fallback. Only `ValueError` is
caught; any other exception propagates. -/
def hfRoleCell (execRole : Except PyError String) (iamLookup : Except PyError String) :
    Except PyError String :=
  match execRole with
  | .ok r => .ok r
  | .error PyError.valueError => iamLookup
  | .error e => .error e

/-- Sequential execution of a step list: step number `i` is executed by the
environment `o`; the first exception aborts the run and becomes its result.
The continuation after a `fit` step is reached only once the environment
has returned that step's terminal outcome. -/
def runSteps (o : Nat → Step → Except PyError Unit) : List Step → Nat → Except PyError Unit
  | [], _ => .ok ()
  | s :: rest, i =>
    match o i s with
    | .ok _ => runSteps o rest (i + 1)
    | .error e => .error e

/-- The steps actually begun during sequential execution: the run's prefix
up to and including the first failing step. -/
def executedSteps (o : Nat → Step → Except PyError Unit) :
    List Step → Nat → List Step
  | [], _ => []
  | s :: rest, i =>
    match o i s with
    | .ok _ => s :: executedSteps o rest (i + 1)
    | .error _ => [s]

/-- The HuggingFace notebook's execution: the permissions cell first (with
its `try/except`), then the remaining cells sequentially. -/
def hfRun (execRole iamLookup : Except PyError String)
    (o : Nat → Step → Except PyError Unit) : Except PyError Unit :=
  match hfRoleCell execRole iamLookup with
  | .ok _ => runSteps o hfRestSteps 0
  | .error e => .error e

/-- Number of `fit` calls on the object named `e` in a step list. -/
def fitCount (l : List Step) (e : String) : Nat :=
  (l.filter fun s => s == Step.fit e).length

/-- `true` iff every step satisfying `p` occurs strictly before every step
satisfying `q` in the list. -/
def allBefore (p q : Step → Bool) (l : List Step) : Bool :=
  (l.enum.filter fun x => p x.2).all fun x =>
    (l.enum.filter fun y => q y.2).all fun y => decide (x.1 < y.1)

def stepIsLoad : Step → Bool
  | Step.loadData => true
  | _ => false

def stepIsPreprocess : Step → Bool
  | Step.preprocessData => true
  | _ => false

def stepIsUpload : Step → Bool
  | Step.uploadData _ => true
  | _ => false

def stepIsConstruct : Step → Bool
  | Step.mkEstimator _ => true
  | Step.mkTuner _ => true
  | _ => false

/-- Counting a `fit` among the steps actually begun never exceeds its count
in the full step list. -/
theorem fitCount_executedSteps_le (o : Nat → Step → Except PyError Unit) :
    ∀ (l : List Step) (i : Nat) (e : String),
      fitCount (executedSteps o l i) e ≤ fitCount l e := by
  intro l
  induction l with
  | nil => intro i e; exact Nat.le_refl _
  | cons s rest ih =>
    intro i e
    simp only [executedSteps]
    cases o i s with
    | ok u =>
      simp only [fitCount, List.filter]
      cases s == Step.fit e <;> simp only [List.length_cons]
      · exact ih (i + 1) e
      · exact Nat.succ_le_succ (ih (i + 1) e)
    | error err =>
      simp only [fitCount, List.filter]
      cases s == Step.fit e <;> simp only [List.length_cons, List.length_nil]
      · exact Nat.zero_le _
      · exact Nat.succ_le_succ (Nat.zero_le _)

/-- C7: each notebook issues `fit` exactly once per estimator (or tuner)
object in its source; in any execution each such `fit` is begun at most
once; and a `fit` whose remote job fails aborts the run at once — the
steps after it never execute, so a failed `fit` is never re-invoked. -/
theorem fit_called_once_per_estimator :
    fitCount builtinNotebook "xgb_estimator" = 1 ∧
    fitCount builtinNotebook "tuner" = 1 ∧
    fitCount scriptModeNotebook "xgb_estimator" = 1 ∧
    fitCount hfNotebook "huggingface_estimator" = 1 ∧
    fitCount hfNotebook "huggingface_estimator_resume" = 1 ∧
    (∀ o i, fitCount (executedSteps o builtinNotebook i) "xgb_estimator" ≤ 1) ∧
    (∀ o i, fitCount (executedSteps o builtinNotebook i) "tuner" ≤ 1) ∧
    (∀ o i, fitCount (executedSteps o scriptModeNotebook i) "xgb_estimator" ≤ 1) ∧
    (∀ o i, fitCount (executedSteps o hfNotebook i) "huggingface_estimator" ≤ 1) ∧
    (∀ o i, fitCount (executedSteps o hfNotebook i) "huggingface_estimator_resume" ≤ 1) ∧
    (∀ (o : Nat → Step → Except PyError Unit) (i : Nat) (rest : List Step)
        (err : PyError) (e : String),
      o i (Step.fit e) = Except.error err →
      runSteps o (Step.fit e :: rest) i = Except.error err) := by
  refine ⟨by decide, by decide, by decide, by decide, by decide, ?_, ?_, ?_, ?_, ?_, ?_⟩
  · intro o i
    exact le_trans (fitCount_executedSteps_le o builtinNotebook i "xgb_estimator") (by decide)
  · intro o i
    exact le_trans (fitCount_executedSteps_le o builtinNotebook i "tuner") (by decide)
  · intro o i
    exact le_trans (fitCount_executedSteps_le o scriptModeNotebook i "xgb_estimator") (by decide)
  · intro o i
    exact le_trans (fitCount_executedSteps_le o hfNotebook i "huggingface_estimator") (by decide)
  · intro o i
    exact le_trans
      (fitCount_executedSteps_le o hfNotebook i "huggingface_estimator_resume") (by decide)
  · intro o i rest err e h
    simp only [runSteps, h]

theorem fit_called_once_per_estimator_witness :
    runSteps (fun _ _ => Except.error (PyError.genericError "ResourceLimitExceeded"))
        [Step.fit "xgb_estimator"] 0
      = Except.error (PyError.genericError "ResourceLimitExceeded") :=
  fit_called_once_per_estimator.2.2.2.2.2.2.2.2.2.2
    (fun _ _ => Except.error (PyError.genericError "ResourceLimitExceeded"))
    0 [] (PyError.genericError "ResourceLimitExceeded") "xgb_estimator" rfl

/-- C8: in every notebook, all data-loading steps precede all preprocessing
steps, which precede all uploads to object storage, which precede all
estimator/tuner constructions; and each estimator or tuner object is
constructed before its `fit` is issued. -/
theorem notebook_phase_order :
    (allBefore stepIsLoad stepIsPreprocess builtinNotebook
      && allBefore stepIsPreprocess stepIsUpload builtinNotebook
      && allBefore stepIsUpload stepIsConstruct builtinNotebook
      && allBefore (fun s => s == Step.mkEstimator "xgb_estimator")
          (fun s => s == Step.fit "xgb_estimator") builtinNotebook
      && allBefore (fun s => s == Step.mkTuner "tuner")
          (fun s => s == Step.fit "tuner") builtinNotebook
      && allBefore stepIsLoad stepIsPreprocess scriptModeNotebook
      && allBefore stepIsPreprocess stepIsUpload scriptModeNotebook
      && allBefore stepIsUpload stepIsConstruct scriptModeNotebook
      && allBefore (fun s => s == Step.mkEstimator "xgb_estimator")
          (fun s => s == Step.fit "xgb_estimator") scriptModeNotebook
      && allBefore stepIsLoad stepIsPreprocess hfNotebook
      && allBefore stepIsPreprocess stepIsUpload hfNotebook
      && allBefore stepIsUpload stepIsConstruct hfNotebook
      && allBefore (fun s => s == Step.mkEstimator "huggingface_estimator")
          (fun s => s == Step.fit "huggingface_estimator") hfNotebook
      && allBefore (fun s => s == Step.mkEstimator "huggingface_estimator_resume")
          (fun s => s == Step.fit "huggingface_estimator_resume") hfNotebook) = true := by
  decide

/-- In a linear run, the first failing step's exception becomes the result
of the whole run: nothing downstream catches it. -/
theorem runSteps_error_propagates (o : Nat → Step → Except PyError Unit) :
    ∀ (l : List Step) (i j : Nat) (e : PyError), j < l.length →
      (∀ k, k < j → o (i + k) (l.getD k Step.pipInstall) = Except.ok ()) →
      o (i + j) (l.getD j Step.pipInstall) = Except.error e →
      runSteps o l i = Except.error e := by
  intro l
  induction l with
  | nil => intro i j e hj; exact absurd hj (by simp)
  | cons s rest ih =>
    intro i j e hj hok herr
    cases j with
    | zero =>
      simp only [List.getD_cons_zero, Nat.add_zero] at herr
      simp only [runSteps, herr]
    | succ j =>
      have h0 : o i s = Except.ok () := by
        have := hok 0 (Nat.succ_pos j)
        simpa using this
      simp only [runSteps, h0]
      refine ih (i + 1) j e (by simpa using hj) ?_ ?_
      · intro k hk
        have := hok (k + 1) (Nat.succ_lt_succ hk)
        simpa [Nat.add_assoc, Nat.add_comm 1 k] using this
      · simpa [Nat.add_assoc, Nat.add_comm 1 j] using herr

/-- C4 counterexample: in the HuggingFace notebook's permissions cell, a
`ValueError` raised by the SDK call `sagemaker.get_execution_role` does not
propagate to top level: it is caught, the `iam.get_role` fallback supplies
the role, and the notebook run completes. -/
theorem sdk_exception_caught_in_hf_permissions_cell :
    hfRoleCell (Except.error PyError.valueError)
        (Except.ok "arn:aws:iam::123456789012:role/sagemaker_execution_role")
      = Except.ok "arn:aws:iam::123456789012:role/sagemaker_execution_role" ∧
    hfRun (Except.error PyError.valueError)
        (Except.ok "arn:aws:iam::123456789012:role/sagemaker_execution_role")
        (fun _ _ => Except.ok ())
      ≠ Except.error PyError.valueError := by
  exact ⟨rfl, fun h => Except.noConfusion h⟩

/-- C4 (amended): apart from the HuggingFace permissions cell — which
catches exactly a `ValueError` from `get_execution_role` and recovers via
`iam.get_role` — no notebook catches, classifies, or recovers from an SDK
exception: in both XGBoost notebooks and in the HuggingFace cells after the
permissions cell, the first SDK exception propagates uncaught and becomes
the top-level outcome, and a non-`ValueError` exception from
`get_execution_role` also propagates. -/
theorem sdk_exceptions_propagate_except_hf_role_cell :
    (∀ (o : Nat → Step → Except PyError Unit) (i j : Nat) (e : PyError),
      j < builtinNotebook.length →
      (∀ k, k < j → o (i + k) (builtinNotebook.getD k Step.pipInstall) = Except.ok ()) →
      o (i + j) (builtinNotebook.getD j Step.pipInstall) = Except.error e →
      runSteps o builtinNotebook i = Except.error e) ∧
    (∀ (o : Nat → Step → Except PyError Unit) (i j : Nat) (e : PyError),
      j < scriptModeNotebook.length →
      (∀ k, k < j → o (i + k) (scriptModeNotebook.getD k Step.pipInstall) = Except.ok ()) →
      o (i + j) (scriptModeNotebook.getD j Step.pipInstall) = Except.error e →
      runSteps o scriptModeNotebook i = Except.error e) ∧
    (∀ (o : Nat → Step → Except PyError Unit) (j : Nat) (e : PyError) (r : String),
      j < hfRestSteps.length →
      (∀ k, k < j → o k (hfRestSteps.getD k Step.pipInstall) = Except.ok ()) →
      o j (hfRestSteps.getD j Step.pipInstall) = Except.error e →
      hfRun (Except.ok r) (Except.ok r) o = Except.error e) ∧
    (∀ (r : String) (o : Nat → Step → Except PyError Unit),
      hfRun (Except.error PyError.valueError) (Except.ok r) o = runSteps o hfRestSteps 0) ∧
    (∀ (e : PyError) (la : Except PyError String) (o : Nat → Step → Except PyError Unit),
      e ≠ PyError.valueError → hfRun (Except.error e) la o = Except.error e) := by
  refine ⟨?_, ?_, ?_, ?_, ?_⟩
  · intro o i j e hj hok herr
    exact runSteps_error_propagates o builtinNotebook i j e hj hok herr
  · intro o i j e hj hok herr
    exact runSteps_error_propagates o scriptModeNotebook i j e hj hok herr
  · intro o j e r hj hok herr
    show runSteps o hfRestSteps 0 = Except.error e
    refine runSteps_error_propagates o hfRestSteps 0 j e hj ?_ ?_
    · intro k hk; simpa using hok k hk
    · simpa using herr
  · intro r o; rfl
  · intro e la o h
    cases e with
    | valueError => exact absurd rfl h
    | clientError m => rfl
    | genericError m => rfl

theorem sdk_exceptions_propagate_except_hf_role_cell_witness :
    runSteps
        (fun n _ => if n == 12 then Except.error (PyError.clientError "ResourceLimitExceeded")
          else Except.ok ())
        builtinNotebook 0
      = Except.error (PyError.clientError "ResourceLimitExceeded") :=
  sdk_exceptions_propagate_except_hf_role_cell.1
    (fun n _ => if n == 12 then Except.error (PyError.clientError "ResourceLimitExceeded")
      else Except.ok ())
    0 12 (PyError.clientError "ResourceLimitExceeded")
    (by decide) (by intro k hk; interval_cases k <;> rfl) rfl

end YahooSagemaker
